import Mathlib

set_option maxRecDepth 20000

/-!
Shallow embedding of the settings module of the decision-maker API
(`app/config/settings.py`): typed environment-variable resolution with
mode-conditional defaults, validation, conversion, and a single-slot
process-wide cache.  Pure functions model the Python methods; the process
environment is an explicit map, and failures are explicit `Except` errors.
-/

/-- Environment-variable identifiers (`Key` StrEnum); each member's string
value is the lower-case form of its name. -/
inductive Key where
  | mode
  | host
  | port
  | gcp_project_id
  | gcp_resource_type
deriving DecidableEq

/-- String value of a `Key` member (StrEnum `auto()` gives the lower-case name). -/
def Key.toStr : Key → String
  | .mode => "mode"
  | .host => "host"
  | .port => "port"
  | .gcp_project_id => "gcp_project_id"
  | .gcp_resource_type => "gcp_resource_type"

/-- Deployment modes (`Mode` StrEnum). -/
inductive Mode where
  | development
  | production
deriving DecidableEq

/-- String value of a `Mode` member. -/
def Mode.toStr : Mode → String
  | .development => "development"
  | .production => "production"

/-- Error values raised during resolution.  The module raises Python
`EnvironmentError` (the configuration-error kind of this layer) for
missing/empty/invalid variables, while converters raise their native
`ValueError` on a failed conversion. -/
inductive ConfigException where
  | environmentError (msg : String)
  | valueError (msg : String)
deriving DecidableEq

/-- The process environment: a map from variable name to raw string value;
`none` models an unset variable, distinct from the empty string. -/
abbrev Env := String → Option String

/-- A default value applicable only in specific modes. -/
structure ModeConditionalDefault (T : Type) where
  value : T
  allowed_modes : Finset Mode

/-- The constructor argument `allowed_modes: set[Mode] | Mode`: either a
single mode or a set of modes. -/
inductive ModesArg where
  | single (m : Mode)
  | many (s : Finset Mode)

/-- `ModeConditionalDefault.__init__`: a single mode is wrapped into a
singleton set; a set argument is stored as given. -/
def ModeConditionalDefault.make (value : T) (arg : ModesArg) :
    ModeConditionalDefault T :=
  match arg with
  | .single m => { value := value, allowed_modes := {m} }
  | .many s => { value := value, allowed_modes := s }

/-- `ModeConditionalDefault.should_apply`: membership of the current mode in
the allowed set. -/
def ModeConditionalDefault.should_apply (d : ModeConditionalDefault T)
    (current_mode : Mode) : Bool :=
  decide (current_mode ∈ d.allowed_modes)

/-- Descriptor for one environment variable (`EnvironmentVariable`). -/
structure EnvironmentVariable (T : Type) where
  key : Key
  sensitive : Bool
  default : Option T
  mode_conditional_default : Option (ModeConditionalDefault T)
  validator : Option (String → Bool)
  converter : String → Except ConfigException T

/-- Message of the error raised when a variable is absent and no default
applies; the mode context is appended exactly when a mode was supplied. -/
def requiredMsg (key : Key) (current_mode : Option Mode) : String :=
  let mode_context :=
    match current_mode with
    | some m => " (current_mode: " ++ m.toStr ++ ")"
    | none => ""
  key.toStr ++ " environment variable is required" ++ mode_context ++
    ". No default value is available for this mode."

/-- Message of the error raised on an empty-string value. -/
def emptyMsg (key : Key) : String :=
  "Environment variable \x27" ++ key.toStr ++ "\x27 is empty"

/-- Message of the error raised on a failed validation; the raw value is
appended exactly when the variable is not sensitive. -/
def validationMsg (key : Key) (sensitive : Bool) (raw_value : String) : String :=
  "validation failed for \x27" ++ key.toStr ++ "\x27." ++
    (if sensitive then "" else " raw_value: " ++ raw_value)

/-- `EnvironmentVariable._handle_raw_value_none`: plain default first, then a
mode-conditional default when a mode was supplied and matches, else an error. -/
def EnvironmentVariable.handle_raw_value_none (v : EnvironmentVariable T)
    (current_mode : Option Mode) : Except ConfigException T :=
  match v.default, v.mode_conditional_default, current_mode with
  | some d, _, _ => .ok d
  | none, some mcd, some m =>
      if mcd.should_apply m then .ok mcd.value
      else .error (.environmentError (requiredMsg v.key current_mode))
  | none, _, _ => .error (.environmentError (requiredMsg v.key current_mode))

/-- `EnvironmentVariable.get_validated_value`: read the raw value, fall back
to defaults when absent, reject empty strings, run the validator, convert. -/
def EnvironmentVariable.get_validated_value (v : EnvironmentVariable T)
    (env : Env) (current_mode : Option Mode) : Except ConfigException T :=
  match env v.key.toStr with
  | none => v.handle_raw_value_none current_mode
  | some raw_value =>
    if raw_value = "" then
      .error (.environmentError (emptyMsg v.key))
    else
      match v.validator with
      | some f =>
          if f raw_value = false then
            .error (.environmentError (validationMsg v.key v.sensitive raw_value))
          else v.converter raw_value
      | none => v.converter raw_value

/-- Zero code points of the 66 contiguous blocks of Unicode decimal digits
(category Nd, Unicode 14, the database Python's `str.isdigit` and `int`
consult); every decimal digit is one of these plus its value 0-9. -/
def decimalZeroPoints : List Nat :=
  [0x30, 0x660, 0x6f0, 0x7c0, 0x966, 0x9e6, 0xa66, 0xae6, 0xb66, 0xbe6,
   0xc66, 0xce6, 0xd66, 0xde6, 0xe50, 0xed0, 0xf20, 0x1040, 0x1090, 0x17e0,
   0x1810, 0x1946, 0x19d0, 0x1a80, 0x1a90, 0x1b50, 0x1bb0, 0x1c40, 0x1c50,
   0xa620, 0xa8d0, 0xa900, 0xa9d0, 0xa9f0, 0xaa50, 0xabf0, 0xff10, 0x104a0,
   0x10d30, 0x11066, 0x110f0, 0x11136, 0x111d0, 0x112f0, 0x11450, 0x114d0,
   0x11650, 0x116c0, 0x11730, 0x118e0, 0x11950, 0x11c50, 0x11d50, 0x11da0,
   0x16a60, 0x16ac0, 0x16b50, 0x1d7ce, 0x1d7d8, 0x1d7e2, 0x1d7ec, 0x1d7f6,
   0x1e140, 0x1e2f0, 0x1e950, 0x1fbf0]

/-- Decimal value of a Unicode decimal-digit character (category Nd), as
Python's `int` reads one; `none` for every other character. -/
def pyCharDecimal? (c : Char) : Option Nat :=
  (decimalZeroPoints.find? fun z =>
      decide (z ≤ c.toNat) && decide (c.toNat ≤ z + 9)).map
    (fun z => c.toNat - z)

/-- Python `str.isdigit` on strings of decimal-digit characters: non-empty
and every character a Unicode decimal digit (not only ASCII).  Python's
`isdigit` additionally accepts the 128 digit-type characters without a
decimal value (superscripts such as the squared sign); on any string
containing one of those the source's port validator raises `ValueError`
from `int` before returning, so such characters are outside this model and
outside the port characterization below. -/
def pyIsDigit (s : String) : Bool :=
  !s.data.isEmpty && s.data.all (fun c => (pyCharDecimal? c).isSome)

/-- Value of a string of Unicode decimal digits, as computed by Python
`int`. -/
def digitsToNat (s : String) : Nat :=
  s.data.foldl (fun n c => 10 * n + ((pyCharDecimal? c).getD 0)) 0

/-- The identity converter (the descriptor's default `lambda x: x`). -/
def idConverter (s : String) : Except ConfigException String := .ok s

/-- The `Mode` StrEnum as a converter: lookup by value, raising `ValueError`
for an unrecognized string. -/
def modeConverter (s : String) : Except ConfigException Mode :=
  if s = "development" then .ok .development
  else if s = "production" then .ok .production
  else .error (.valueError ("\x27" ++ s ++ "\x27 is not a valid Mode"))

/-- Python `int` as a converter, restricted to strings of Unicode decimal
digits; richer `int` syntax (signs, whitespace, underscores) is unreachable
in the port flow because the validator admits only decimal-digit strings. -/
def intConverter (s : String) : Except ConfigException Nat :=
  if pyIsDigit s then .ok (digitsToNat s)
  else .error (.valueError ("invalid literal for int() with base 10: \x27" ++ s ++ "\x27"))

/-- The port validator: `x.isdigit() and 1 <= int(x) <= 65535`. -/
def portValidator (x : String) : Bool :=
  pyIsDigit x && (decide (1 ≤ digitsToNat x) && decide (digitsToNat x ≤ 65535))

/-- The `MODE` field descriptor. -/
def modeVariable : EnvironmentVariable Mode :=
  { key := Key.mode, sensitive := false, default := none,
    mode_conditional_default := none, validator := none,
    converter := modeConverter }

/-- The `HOST` field descriptor. -/
def hostVariable : EnvironmentVariable String :=
  { key := Key.host, sensitive := false, default := none,
    mode_conditional_default :=
      some (ModeConditionalDefault.make "0.0.0.0" (ModesArg.single Mode.development)),
    validator := none, converter := idConverter }

/-- The `PORT` field descriptor. -/
def portVariable : EnvironmentVariable Nat :=
  { key := Key.port, sensitive := false, default := none,
    mode_conditional_default :=
      some (ModeConditionalDefault.make 8000 (ModesArg.single Mode.development)),
    validator := some portValidator, converter := intConverter }

/-- The `GCP_PROJECT_ID` field descriptor. -/
def gcpProjectIdVariable : EnvironmentVariable String :=
  { key := Key.gcp_project_id, sensitive := false, default := none,
    mode_conditional_default := none, validator := none,
    converter := idConverter }

/-- The `GCP_RESOURCE_TYPE` field descriptor. -/
def gcpResourceTypeVariable : EnvironmentVariable String :=
  { key := Key.gcp_resource_type, sensitive := false, default := none,
    mode_conditional_default :=
      some (ModeConditionalDefault.make "cloud_run_revision" (ModesArg.single Mode.development)),
    validator := none, converter := idConverter }

/-- The settings aggregate: five typed fields populated at construction. -/
structure Settings where
  mode : Mode
  host : String
  port : Nat
  gcp_project_id : String
  gcp_resource_type : String
deriving DecidableEq

/-- `Settings.__init__`: fields resolved top-to-bottom; `mode` first, then
`host`, `port` and `gcp_resource_type` each receive the resolved mode as
`current_mode`, while the `gcp_project_id` call passes no mode (the source
calls `get_validated_value()` there with no argument). -/
def Settings.build (env : Env) : Except ConfigException Settings := do
  let mode ← modeVariable.get_validated_value env none
  let host ← hostVariable.get_validated_value env (some mode)
  let port ← portVariable.get_validated_value env (some mode)
  let gcp_project_id ← gcpProjectIdVariable.get_validated_value env none
  let gcp_resource_type ← gcpResourceTypeVariable.get_validated_value env (some mode)
  return { mode := mode, host := host, port := port,
           gcp_project_id := gcp_project_id,
           gcp_resource_type := gcp_resource_type }

/-- The `mentions` relation: `sub` occurs as a contiguous substring of `msg`. -/
def mentions (msg sub : String) : Prop :=
  sub.data <:+: msg.data

instance (msg sub : String) : Decidable (mentions msg sub) :=
  List.decidableInfix sub.data msg.data

/-- The text `(current_mode: <mode>)` appended to required-variable errors. -/
def currentModeText (m : Mode) : String :=
  "(current_mode: " ++ m.toStr ++ ")"

/-- A plain-default plus mode-conditional-default descriptor used to witness
claim C1 (the spec's host example: plain "regular" alongside a
development-mode "dev_host"). -/
def hostLikeVariable : EnvironmentVariable String :=
  { key := Key.host, sensitive := false, default := some "regular",
    mode_conditional_default :=
      some (ModeConditionalDefault.make "dev_host" (ModesArg.single Mode.development)),
    validator := none, converter := idConverter }

/-- The empty environment: nothing is set. -/
def emptyEnv : Env := fun _ => none

/-- Modelled from the spec's words for claim C2: the resolved mode is
"passed as `current_mode` to every subsequent field resolution", i.e. all
four of host, port, gcp_project_id and gcp_resource_type receive it.  To be
compared with `Settings.build`, whose `gcp_project_id` call passes no mode. -/
def Settings.buildSpecC2 (env : Env) : Except ConfigException Settings := do
  let mode ← modeVariable.get_validated_value env none
  let host ← hostVariable.get_validated_value env (some mode)
  let port ← portVariable.get_validated_value env (some mode)
  let gcp_project_id ← gcpProjectIdVariable.get_validated_value env (some mode)
  let gcp_resource_type ← gcpResourceTypeVariable.get_validated_value env (some mode)
  return { mode := mode, host := host, port := port,
           gcp_project_id := gcp_project_id,
           gcp_resource_type := gcp_resource_type }

/-- The single-slot cache of `lru_cache(maxsize=1)` over `get_settings`:
the memoized instance (if any) plus hit/miss counters. -/
structure CacheState where
  slot : Option Settings
  hits : Nat
  misses : Nat
deriving DecidableEq

/-- The cache at process start: empty slot, zero counters. -/
def initialCache : CacheState :=
  { slot := none, hits := 0, misses := 0 }

/-- `cache_info().currsize`: 1 when the slot is populated, else 0. -/
def currsize (s : CacheState) : Nat :=
  match s.slot with
  | some _ => 1
  | none => 0

/-- `get_settings()` under `lru_cache(maxsize=1)`: a populated slot is a hit
returning the cached instance; an empty slot counts a miss, then calls
`Settings()`, storing the instance only when construction succeeds. -/
def get_settings (env : Env) (s : CacheState) :
    Except ConfigException Settings × CacheState :=
  match s.slot with
  | some inst => (.ok inst, { s with hits := s.hits + 1 })
  | none =>
    match Settings.build env with
    | .ok inst =>
        (.ok inst, { slot := some inst, hits := s.hits, misses := s.misses + 1 })
    | .error e => (.error e, { s with misses := s.misses + 1 })

/-- `reload_settings()`: `cache_clear()` empties the slot and resets the
hit/miss counters; it takes no environment and constructs nothing. -/
def reload_settings (_s : CacheState) : CacheState := initialCache

/-- `is_settings_cached()`: `bool(cache_info().currsize)`. -/
def is_settings_cached (s : CacheState) : Bool :=
  currsize s != 0

/-- Development environment with only `MODE` and `GCP_PROJECT_ID` set. -/
def envDev : Env := fun k =>
  if k = "mode" then some "development"
  else if k = "gcp_project_id" then some "p"
  else none

/-- Production environment with everything set except `GCP_PROJECT_ID`. -/
def envProdNoProject : Env := fun k =>
  if k = "mode" then some "production"
  else if k = "host" then some "h"
  else if k = "port" then some "80"
  else if k = "gcp_resource_type" then some "r"
  else none

/-- Environment whose `MODE` value is not a recognized mode. -/
def envStaging : Env := fun k =>
  if k = "mode" then some "staging" else none

/-- Environment binding only `HOST`, to a given raw value. -/
def envHost (raw : String) : Env := fun k =>
  if k = "host" then some raw else none

/-- Environment binding only `PORT`, to a given raw value. -/
def envPort (raw : String) : Env := fun k =>
  if k = "port" then some raw else none

/-- A sensitive descriptor whose validator rejects everything, used to
examine validation-failure messages for sensitive variables. -/
def sensitiveVariable : EnvironmentVariable String :=
  { key := Key.gcp_project_id, sensitive := true, default := none,
    mode_conditional_default := none,
    validator := some (fun _ => false), converter := idConverter }

/-- Environment binding `GCP_PROJECT_ID` to the string "validation", which
happens to occur in the fixed validation-failure message template. -/
def envSensitive : Env := fun k =>
  if k = "gcp_project_id" then some "validation" else none

/-- C1: when the raw value is absent and both a plain default and a
mode-conditional default are configured, resolution returns the plain
default, even when the supplied current mode is allowed by the
mode-conditional default. -/
theorem claim_C1_plain_default_wins {T : Type} (v : EnvironmentVariable T)
    (env : Env) (m : Mode) (d : T) (mcd : ModeConditionalDefault T)
    (henv : env v.key.toStr = none)
    (hd : v.default = some d)
    (hmcd : v.mode_conditional_default = some mcd)
    (hmode : m ∈ mcd.allowed_modes) :
    v.get_validated_value env (some m) = .ok d := by
  unfold EnvironmentVariable.get_validated_value
  rw [henv]
  unfold EnvironmentVariable.handle_raw_value_none
  rw [hd]

/-- C1 witness: the spec's host example, resolved in development mode,
yields the plain default "regular". -/
theorem claim_C1_plain_default_wins_witness :
    hostLikeVariable.get_validated_value emptyEnv (some Mode.development) =
      .ok "regular" :=
  claim_C1_plain_default_wins hostLikeVariable emptyEnv Mode.development
    "regular" (ModeConditionalDefault.make "dev_host" (ModesArg.single Mode.development))
    rfl rfl rfl (by decide)

/-- C2 counterexample: with `MODE=production`, `HOST`, `PORT` and
`GCP_RESOURCE_TYPE` set and `GCP_PROJECT_ID` unset, the source construction
differs from the spec-order construction that passes the resolved mode to
every subsequent field: the `gcp_project_id` failure message carries no
`(current_mode: production)` context, because that call passes no mode. -/
theorem claim_C2_counterexample :
    Settings.build envProdNoProject ≠ Settings.buildSpecC2 envProdNoProject := by
  intro h
  have h1 : Settings.build envProdNoProject =
      .error (.environmentError
        "gcp_project_id environment variable is required. No default value is available for this mode.") := rfl
  have h2 : Settings.buildSpecC2 envProdNoProject =
      .error (.environmentError
        "gcp_project_id environment variable is required (current_mode: production). No default value is available for this mode.") := rfl
  rw [h1, h2] at h
  injection h with h3
  injection h3 with h4
  exact absurd h4 (by decide)

/-- C2 (amended): the mode field is resolved first, and the resolved mode is
passed as `current_mode` to the resolution of host, port and
gcp_resource_type; the gcp_project_id resolution receives no current mode. -/
theorem claim_C2_mode_threading (env : Env) (m : Mode)
    (hm : modeVariable.get_validated_value env none = .ok m) :
    Settings.build env = (do
      let host ← hostVariable.get_validated_value env (some m)
      let port ← portVariable.get_validated_value env (some m)
      let gcp_project_id ← gcpProjectIdVariable.get_validated_value env none
      let gcp_resource_type ← gcpResourceTypeVariable.get_validated_value env (some m)
      return { mode := m, host := host, port := port,
               gcp_project_id := gcp_project_id,
               gcp_resource_type := gcp_resource_type }) := by
  unfold Settings.build
  rw [hm]
  rfl

/-- C2 witness: in the development environment the construction runs the
post-mode resolutions with `current_mode = development` (and none for
gcp_project_id). -/
theorem claim_C2_mode_threading_witness :
    Settings.build envDev = (do
      let host ← hostVariable.get_validated_value envDev (some Mode.development)
      let port ← portVariable.get_validated_value envDev (some Mode.development)
      let gcp_project_id ← gcpProjectIdVariable.get_validated_value envDev none
      let gcp_resource_type ←
        gcpResourceTypeVariable.get_validated_value envDev (some Mode.development)
      return { mode := Mode.development, host := host, port := port,
               gcp_project_id := gcp_project_id,
               gcp_resource_type := gcp_resource_type }) :=
  claim_C2_mode_threading envDev Mode.development rfl

/-- C5: a present but empty raw value fails with the empty-value error,
whatever defaults are configured; the empty string is never routed to the
absent-value fallback. -/
theorem claim_C5_empty_value_error {T : Type} (v : EnvironmentVariable T)
    (env : Env) (cm : Option Mode)
    (henv : env v.key.toStr = some "") :
    v.get_validated_value env cm = .error (.environmentError (emptyMsg v.key)) := by
  unfold EnvironmentVariable.get_validated_value
  rw [henv]
  rfl

/-- C5 witness: a descriptor with both a plain and a mode-conditional
default still fails on an empty `HOST` value. -/
theorem claim_C5_empty_value_error_witness :
    hostLikeVariable.get_validated_value (envHost "") (some Mode.development) =
      .error (.environmentError "Environment variable \x27host\x27 is empty") :=
  claim_C5_empty_value_error hostLikeVariable (envHost "") (some Mode.development) rfl

/-- C9 counterexample: the constructor accepts an empty set of modes, so a
constructible `ModeConditionalDefault` can have empty `allowed_modes`. -/
theorem claim_C9_counterexample :
    (ModeConditionalDefault.make "x" (ModesArg.many (∅ : Finset Mode))).allowed_modes =
      (∅ : Finset Mode) := rfl

/-- C9 (amended): a `ModeConditionalDefault` constructed from a single mode
always has non-empty `allowed_modes`; one constructed from a set stores that
set unchanged, so its `allowed_modes` is non-empty exactly when the argument
set is — the constructor does not enforce non-emptiness. -/
theorem claim_C9_allowed_modes_nonempty {T : Type} (value : T) (arg : ModesArg) :
    (ModeConditionalDefault.make value arg).allowed_modes.Nonempty ↔
      (∀ s, arg = ModesArg.many s → s.Nonempty) := by
  cases arg with
  | single m =>
      constructor
      · intro _ s h
        cases h
      · intro _
        exact Finset.singleton_nonempty m
  | many s =>
      constructor
      · intro hs t h
        cases h
        exact hs
      · intro h
        exact h s rfl

/-- C9 witness: a default constructed from the single development mode has
non-empty allowed modes. -/
theorem claim_C9_allowed_modes_nonempty_witness :
    (ModeConditionalDefault.make "x" (ModesArg.single Mode.development)).allowed_modes.Nonempty :=
  (claim_C9_allowed_modes_nonempty "x" (ModesArg.single Mode.development)).mpr
    (fun _ h => by cases h)

/-- Helper: when no plain default is set and the mode-conditional default
does not apply, the absent-value fallback is the required-variable error. -/
theorem handleNoneNoDefaults {T : Type} (v : EnvironmentVariable T) (cm : Option Mode)
    (hd : v.default = none)
    (hmcd : ∀ mcd m, v.mode_conditional_default = some mcd → cm = some m →
      m ∉ mcd.allowed_modes) :
    v.handle_raw_value_none cm =
      .error (.environmentError (requiredMsg v.key cm)) := by
  obtain ⟨key, sens, dflt, mcdO, valO, conv⟩ := v
  cases dflt with
  | some d => exact Option.noConfusion hd
  | none =>
    cases mcdO with
    | none => cases cm <;> rfl
    | some mcd =>
      cases cm with
      | none => rfl
      | some m =>
        have hne : m ∉ mcd.allowed_modes := hmcd mcd m rfl rfl
        have hfalse : mcd.should_apply m = false := by
          simp only [ModeConditionalDefault.should_apply, decide_eq_false_iff_not]
          exact hne
        show (if mcd.should_apply m = true then Except.ok mcd.value
              else Except.error (ConfigException.environmentError
                (requiredMsg key (some m)))) =
          Except.error (ConfigException.environmentError (requiredMsg key (some m)))
        rw [hfalse]
        simp

/-- Helper: when the raw value is present, resolution reduces to the
empty-check, validation and conversion stages. -/
theorem gvvPresent {T : Type} (v : EnvironmentVariable T) (env : Env)
    (cm : Option Mode) (raw : String) (henv : env v.key.toStr = some raw) :
    v.get_validated_value env cm =
      (if raw = "" then .error (.environmentError (emptyMsg v.key))
       else match v.validator with
         | some f =>
             if f raw = false then
               .error (.environmentError (validationMsg v.key v.sensitive raw))
             else v.converter raw
         | none => v.converter raw) := by
  unfold EnvironmentVariable.get_validated_value
  rw [henv]

/-- Helper: the required-variable message always mentions the key, and
mentions the `(current_mode: <mode>)` text exactly when that mode was
supplied. -/
theorem requiredMsgMentions (key : Key) (cm : Option Mode) :
    mentions (requiredMsg key cm) key.toStr ∧
    (∀ m : Mode, mentions (requiredMsg key cm) (currentModeText m) ↔ cm = some m) := by
  cases key <;> rcases cm with _ | cmode <;>
    first
      | exact ⟨by decide, fun m => by cases m <;> decide⟩
      | (cases cmode <;> exact ⟨by decide, fun m => by cases m <;> decide⟩)

/-- Helper: an empty slot with a successful construction stores the
instance and counts one miss. -/
theorem cacheMissOk (env : Env) (s : CacheState) (v : Settings)
    (hslot : s.slot = none) (hb : Settings.build env = .ok v) :
    get_settings env s =
      (.ok v, { slot := some v, hits := s.hits, misses := s.misses + 1 }) := by
  unfold get_settings
  rw [hslot, hb]

/-- Helper: an empty slot with a failed construction stays empty and counts
one miss. -/
theorem cacheMissErr (env : Env) (s : CacheState) (e : ConfigException)
    (hslot : s.slot = none) (hb : Settings.build env = .error e) :
    get_settings env s =
      (.error e, { slot := none, hits := s.hits, misses := s.misses + 1 }) := by
  unfold get_settings
  rw [hslot, hb]

/-- Helper: a populated slot returns its instance and counts one hit. -/
theorem cacheHit (env : Env) (s : CacheState) (inst : Settings)
    (hslot : s.slot = some inst) :
    get_settings env s =
      (.ok inst, { slot := some inst, hits := s.hits + 1, misses := s.misses }) := by
  unfold get_settings
  rw [hslot]

/-- C3: the cache starts empty with zero counters; from the empty state a
call that constructs successfully stores the instance and records exactly
one miss; any call on a populated slot returns the stored instance and
increments only the hit counter; and reload unconditionally returns the
cache to the initial empty state with both counters reset (reload takes no
environment and performs no construction). -/
theorem claim_C3_cache_state_machine :
    (initialCache.slot = none ∧ initialCache.hits = 0 ∧ initialCache.misses = 0) ∧
    (∀ env inst, Settings.build env = .ok inst →
      get_settings env initialCache =
        (.ok inst, { slot := some inst, hits := 0, misses := 1 })) ∧
    (∀ env s inst, s.slot = some inst →
      get_settings env s =
        (.ok inst, { slot := some inst, hits := s.hits + 1, misses := s.misses })) ∧
    (∀ s, reload_settings s = initialCache) := by
  refine ⟨⟨rfl, rfl, rfl⟩, ?_, ?_, fun s => rfl⟩
  · intro env inst h
    exact cacheMissOk env initialCache inst rfl h
  · intro env s inst h
    exact cacheHit env s inst h

/-- C3 witness: in the development environment, the first call from the
empty cache stores the constructed settings and records one miss. -/
theorem claim_C3_cache_state_machine_witness :
    get_settings envDev initialCache =
      (.ok { mode := Mode.development, host := "0.0.0.0", port := 8000,
             gcp_project_id := "p", gcp_resource_type := "cloud_run_revision" },
       { slot := some { mode := Mode.development, host := "0.0.0.0", port := 8000,
                        gcp_project_id := "p",
                        gcp_resource_type := "cloud_run_revision" },
         hits := 0, misses := 1 }) :=
  claim_C3_cache_state_machine.2.1 envDev _ rfl

/-- C4: an absent variable with no plain default and no applicable
mode-conditional default resolves to the configuration error whose message
mentions the key, and mentions the text `(current_mode: <mode>)` exactly
when a current mode was supplied. -/
theorem claim_C4_required_error {T : Type} (v : EnvironmentVariable T)
    (env : Env) (cm : Option Mode)
    (henv : env v.key.toStr = none)
    (hd : v.default = none)
    (hmcd : ∀ mcd m, v.mode_conditional_default = some mcd → cm = some m →
      m ∉ mcd.allowed_modes) :
    v.get_validated_value env cm =
      .error (.environmentError (requiredMsg v.key cm)) ∧
    mentions (requiredMsg v.key cm) v.key.toStr ∧
    (∀ m : Mode, mentions (requiredMsg v.key cm) (currentModeText m) ↔ cm = some m) := by
  refine ⟨?_, (requiredMsgMentions v.key cm).1, (requiredMsgMentions v.key cm).2⟩
  unfold EnvironmentVariable.get_validated_value
  rw [henv]
  exact handleNoneNoDefaults v cm hd hmcd

/-- C4 witness: `HOST` unset in production mode fails with the message
carrying the `(current_mode: production)` context. -/
theorem claim_C4_required_error_witness :
    hostVariable.get_validated_value emptyEnv (some Mode.production) =
      .error (.environmentError (requiredMsg Key.host (some Mode.production))) :=
  (claim_C4_required_error hostVariable emptyEnv (some Mode.production) rfl rfl
    (fun mcd m h1 h2 => by cases h1; cases h2; decide)).1

/-- C6 counterexample: the validator does not accept exactly digits-only
(0-9) strings — the Arabic-Indic numeral string for 8080 contains no 0-9
digit, yet `str.isdigit` and `int` accept Unicode decimal digits, so the
port resolution accepts it and returns 8080. -/
theorem claim_C6_counterexample :
    portVariable.get_validated_value (envPort "٨٠٨٠") (some Mode.production) =
      .ok 8080 ∧
    "٨٠٨٠".data.all Char.isDigit = false :=
  ⟨rfl, rfl⟩

/-- C6 (amended): the port resolution maps "8080" to 8080 and rejects
"99999", "0" and "not-a-number" with validation errors; in general the
validator accepts exactly the non-empty strings of Unicode decimal digits
(not only ASCII — the Arabic-Indic numerals for 8080 also resolve to 8080)
whose decimal value lies in [1, 65535].  Digit-type characters without a
decimal value, such as the squared sign, make the source validator raise
`ValueError` from `int` and are outside this characterization. -/
theorem claim_C6_port_validation :
    portVariable.get_validated_value (envPort "8080") (some Mode.production) = .ok 8080 ∧
    portVariable.get_validated_value (envPort "٨٠٨٠") (some Mode.production) = .ok 8080 ∧
    portVariable.get_validated_value (envPort "99999") (some Mode.production) =
      .error (.environmentError (validationMsg Key.port false "99999")) ∧
    portVariable.get_validated_value (envPort "0") (some Mode.production) =
      .error (.environmentError (validationMsg Key.port false "0")) ∧
    portVariable.get_validated_value (envPort "not-a-number") (some Mode.production) =
      .error (.environmentError (validationMsg Key.port false "not-a-number")) ∧
    (∀ x : String, portValidator x = true ↔
      (x ≠ "" ∧ (∀ c ∈ x.data, (pyCharDecimal? c).isSome = true) ∧
        1 ≤ digitsToNat x ∧ digitsToNat x ≤ 65535)) := by
  refine ⟨rfl, rfl, rfl, rfl, rfl, ?_⟩
  intro x
  unfold portValidator pyIsDigit
  simp only [Bool.and_eq_true, Bool.not_eq_true', List.all_eq_true, decide_eq_true_eq,
    List.isEmpty_eq_false_iff_exists_mem, and_assoc]
  constructor
  · rintro ⟨⟨c, hc⟩, h2, h3, h4⟩
    refine ⟨fun hx => ?_, h2, h3, h4⟩
    rw [hx] at hc
    exact absurd hc (List.not_mem_nil c)
  · rintro ⟨h1, h2, h3, h4⟩
    refine ⟨?_, h2, h3, h4⟩
    cases x with
    | mk l =>
      cases l with
      | nil => exact absurd rfl h1
      | cons c cs => exact ⟨c, List.mem_cons_self c cs⟩

/-- C7 counterexample: a sensitive variable whose validator rejects the raw
value "validation" fails with the fixed message "validation failed for
'gcp_project_id'.", and that raw value does appear in the message (as a
coincidental substring of the template), contrary to the claim that a
sensitive variable's raw value never appears in the failure message. -/
theorem claim_C7_counterexample :
    sensitiveVariable.get_validated_value envSensitive none =
      .error (.environmentError "validation failed for \x27gcp_project_id\x27.") ∧
    sensitiveVariable.sensitive = true ∧
    envSensitive (sensitiveVariable.key.toStr) = some "validation" ∧
    mentions "validation failed for \x27gcp_project_id\x27." "validation" :=
  ⟨rfl, rfl, rfl, by decide⟩

/-- C7 (amended): a failed validation produces the message that appends the
raw value exactly when the variable is not sensitive; a non-sensitive
message therefore contains the raw value, while a sensitive variable's
message is a fixed string that does not depend on the raw value (though a
raw value may still occur in it coincidentally). -/
theorem claim_C7_validation_message {T : Type} (v : EnvironmentVariable T)
    (env : Env) (cm : Option Mode) (raw : String) (f : String → Bool)
    (henv : env v.key.toStr = some raw) (hraw : raw ≠ "")
    (hval : v.validator = some f) (hf : f raw = false) :
    v.get_validated_value env cm =
      .error (.environmentError (validationMsg v.key v.sensitive raw)) ∧
    validationMsg v.key v.sensitive raw =
      "validation failed for \x27" ++ v.key.toStr ++ "\x27." ++
        (if v.sensitive then "" else " raw_value: " ++ raw) ∧
    (v.sensitive = false → mentions (validationMsg v.key v.sensitive raw) raw) ∧
    (v.sensitive = true →
      ∀ raw2, validationMsg v.key v.sensitive raw = validationMsg v.key v.sensitive raw2) := by
  refine ⟨?_, rfl, ?_, ?_⟩
  · rw [gvvPresent v env cm raw henv, if_neg hraw, hval]
    show (if f raw = false then
            Except.error (ConfigException.environmentError
              (validationMsg v.key v.sensitive raw))
          else v.converter raw) =
        Except.error (ConfigException.environmentError (validationMsg v.key v.sensitive raw))
    rw [if_pos hf]
  · intro hs
    unfold validationMsg
    rw [hs]
    show raw.data <:+:
      ("validation failed for \x27" ++ v.key.toStr ++ "\x27." ++
        (" raw_value: " ++ raw)).data
    exact ⟨("validation failed for \x27" ++ v.key.toStr ++ "\x27." ++ " raw_value: ").data,
      [], by simp [String.data_append]⟩
  · intro hs raw2
    unfold validationMsg
    rw [hs]
    simp

/-- C7 witness: a non-sensitive port validation failure reports the raw
value in its message. -/
theorem claim_C7_validation_message_witness :
    portVariable.get_validated_value (envPort "70000") none =
      .error (.environmentError (validationMsg Key.port false "70000")) :=
  (claim_C7_validation_message portVariable (envPort "70000") none "70000"
    portValidator rfl (by decide) rfl (by decide)).1

/-- C8 counterexample: with `MODE=staging`, construction fails with the
converter's native `ValueError` kind, not the `EnvironmentError` kind this
layer raises for missing/empty/invalid variables — so construction failures
are not all of a single error kind. -/
theorem claim_C8_counterexample :
    Settings.build envStaging =
      .error (.valueError "\x27staging\x27 is not a valid Mode") := rfl

/-- C8 (amended): a present, non-empty `MODE` value that is neither
"development" nor "production" makes construction fail with the mode
converter's native `ValueError` — a conversion failure is a distinct error
condition, not a silently substituted value, but it is not of the
`EnvironmentError` kind covering missing/empty/validator failures. -/
theorem claim_C8_conversion_failure (env : Env) (s : String)
    (henv : env "mode" = some s) (hne : s ≠ "")
    (hdev : s ≠ "development") (hprod : s ≠ "production") :
    Settings.build env =
      .error (.valueError ("\x27" ++ s ++ "\x27 is not a valid Mode")) := by
  have hm : modeVariable.get_validated_value env none =
      .error (.valueError ("\x27" ++ s ++ "\x27 is not a valid Mode")) := by
    rw [gvvPresent modeVariable env none s henv, if_neg hne]
    show modeConverter s = _
    unfold modeConverter
    rw [if_neg hdev, if_neg hprod]
  unfold Settings.build
  rw [hm]
  rfl

/-- C8 witness: `MODE=staging` yields the `ValueError` of the mode
converter. -/
theorem claim_C8_conversion_failure_witness :
    Settings.build envStaging =
      .error (.valueError ("\x27" ++ "staging" ++ "\x27 is not a valid Mode")) :=
  claim_C8_conversion_failure envStaging "staging" rfl (by decide) (by decide) (by decide)

/-- C10: when construction fails during a call on the empty cache, the slot
stays empty (the error is returned, nothing is stored,
`is_settings_cached` is false afterwards) and the next call attempts
construction again, recording another miss. -/
theorem claim_C10_failure_keeps_cache_empty (env : Env) (s : CacheState)
    (e : ConfigException) (hslot : s.slot = none)
    (hb : Settings.build env = .error e) :
    get_settings env s =
      (.error e, { slot := none, hits := s.hits, misses := s.misses + 1 }) ∧
    is_settings_cached (get_settings env s).2 = false ∧
    get_settings env (get_settings env s).2 =
      (.error e, { slot := none, hits := s.hits, misses := s.misses + 2 }) := by
  have h1 : get_settings env s =
      (.error e, { slot := none, hits := s.hits, misses := s.misses + 1 }) :=
    cacheMissErr env s e hslot hb
  refine ⟨h1, ?_, ?_⟩
  · rw [h1]
    rfl
  · rw [h1]
    exact cacheMissErr env _ e rfl hb

/-- C10 witness: with nothing set, the first call fails on the missing
`MODE`, leaves the cache empty, and the second call fails again with a
second miss. -/
theorem claim_C10_failure_keeps_cache_empty_witness :
    get_settings emptyEnv initialCache =
      (.error (.environmentError
        "mode environment variable is required. No default value is available for this mode."),
       { slot := none, hits := 0, misses := 1 }) ∧
    is_settings_cached (get_settings emptyEnv initialCache).2 = false ∧
    get_settings emptyEnv (get_settings emptyEnv initialCache).2 =
      (.error (.environmentError
        "mode environment variable is required. No default value is available for this mode."),
       { slot := none, hits := 0, misses := 2 }) :=
  claim_C10_failure_keeps_cache_empty emptyEnv initialCache _ rfl rfl
